import Mathlib

/-
Formal model of LinuxStatsToMQTT.py (a single-file MQTT telemetry agent).

The Python program keeps three pieces of global mutable state that the
claims are about: the `configuration` dictionary (loaded from the JSON
config file), the `telemetry` dictionary, and the `last_publish` epoch
timestamp.  JSON/dict values are modelled by `JVal` (only strings and
integers occur in the relevant code paths; the CPU-temperature float is
carried opaquely as a `JVal` supplied by the environment).  Python
dictionaries are modelled as association lists with `dget` / `dset`.

Python exceptions are modelled by `PyErr`; a function that can raise
returns an `Outcome` carrying the state reached so far, the observable
effects emitted so far (prints and MQTT client calls), and an optional
error.  External inputs (clock readings, the CPU-temperature sensor, the
broker's responses, socket outcomes) are passed in as explicit
environment parameters, since they are outside the repository.
-/

namespace LS

/-- Model of a JSON / Python value as it occurs in the relevant code
paths: a string or an integer.  (The CPU-temperature float is carried
opaquely through this type; no claim computes with it.) -/
inductive JVal where
  | s : String → JVal
  | i : Int → JVal
deriving DecidableEq, Repr

/-- Python dictionaries (the `configuration` and `telemetry` globals and
decoded messages) as association lists. -/
abbrev Dict := List (String × JVal)

/-- Dictionary lookup, `d[key]` / `key in d`. -/
def dget : Dict → String → Option JVal
  | [], _ => none
  | (k, v) :: rest, key => if k = key then some v else dget rest key

/-- Dictionary update `d[key] = val` (overwrites in place, appends if
absent, preserving all other keys). -/
def dset : Dict → String → JVal → Dict
  | [], key, val => [(key, val)]
  | (k, v) :: rest, key, val =>
    if k = key then (k, val) :: rest else (k, v) :: dset rest key val

/-- Python exception kinds raised (or potentially raised) by the code
paths under study. -/
inductive PyErr where
  | typeError : PyErr
  | keyError : String → PyErr
  | valueError : PyErr
  | jsonDecodeError : PyErr
  | connectionRefusedError : PyErr
  | timeoutError : PyErr
  | keyboardInterrupt : PyErr
  | interruptedError : PyErr
  | osError : PyErr
deriving DecidableEq, Repr

/-- Python string concatenation `a + b` where `a` is a `str` literal and
`b` is a dictionary value: succeeds only when `b` is a `str`, raises
`TypeError` otherwise (`can only concatenate str (not "int") to str`). -/
def strConcat : String → JVal → Except PyErr String
  | a, JVal.s b => Except.ok (a ++ b)
  | _, JVal.i _ => Except.error PyErr.typeError

/-- Python `str(v)`: total conversion to a string. -/
def pyStr : JVal → String
  | JVal.s v => v
  | JVal.i v => toString v

/-- Python comparison `v > n` against an `int`: succeeds for an `int`
value, raises `TypeError` for a `str` (unorderable types). -/
def pyGtInt (v : JVal) (n : Int) : Except PyErr Bool :=
  match v with
  | JVal.i m => Except.ok (decide (m > n))
  | JVal.s _ => Except.error PyErr.typeError

/-- Decimal digit value of a character, if it is a digit. -/
def decVal (c : Char) : Option Nat :=
  if 48 ≤ c.toNat ∧ c.toNat ≤ 57 then some (c.toNat - 48) else none

/-- Accumulating decimal parse of a character list. -/
def decNat : List Char → Nat → Option Nat
  | [], acc => some acc
  | c :: cs, acc =>
    match decVal c with
    | none => none
    | some d => decNat cs (acc * 10 + d)

/-- Python `int(v)`: identity on `int`s; on a `str`, parses a decimal
numeral and raises `ValueError` otherwise (the only uses in the program
pass non-negative port numerals). -/
def pyToInt : JVal → Except PyErr Int
  | JVal.i n => Except.ok n
  | JVal.s st =>
    match st.data with
    | [] => Except.error PyErr.valueError
    | cs =>
      match decNat cs 0 with
      | some n => Except.ok (Int.ofNat n)
      | none => Except.error PyErr.valueError

/-- Observable effects of the agent: `print` calls and calls into the
paho-mqtt client.  `printMsg` stands for printing `json.dumps` of a
dictionary. -/
inductive Effect where
  | print : String → Effect
  | printMsg : Dict → Effect
  | publish : JVal → Dict → JVal → Effect
  | connect : JVal → Int → Effect
  | subscribe : JVal → JVal → Effect
  | unsubscribe : JVal → Effect
  | loopStart : Effect
  | loopStop : Effect
  | disconnect : Effect
  | reconnect : Effect
  | sleep : Nat → Effect
deriving DecidableEq, Repr

/-- The program's global mutable state: the `configuration` dictionary,
the `telemetry` dictionary, and `last_publish`. -/
structure AgentState where
  configuration : Dict
  telemetry : Dict
  last_publish : Int
deriving DecidableEq, Repr

/-- Result of running a (possibly raising) piece of the program: the
state reached, the effects emitted, and the exception, if one
propagated.  Mutations performed before a raise are retained, as with
Python globals. -/
structure Outcome where
  state : AgentState
  output : List Effect
  error : Option PyErr
deriving DecidableEq, Repr

/-- External inputs consumed by one `on_message` invocation: the
`epoch_time()` reading, the `get_timestamp()` reading, and the
CPU-temperature sensor reading. -/
structure Env where
  now : Int
  ts : String
  cpu : JVal
deriving DecidableEq, Repr

/-- An inbound MQTT payload as seen by `on_message` after
`json.loads`: either not parseable (the call raises
`json.JSONDecodeError`) or a decoded dictionary. -/
inductive Inbound where
  | malformed : Inbound
  | parsed : Dict → Inbound
deriving DecidableEq, Repr

/-- `poll_telemetry()`: `telemetry['cpuTemp'] = gz.CPUTemperature().temperature`. -/
def poll_telemetry (cpu : JVal) (st : AgentState) : AgentState :=
  { st with telemetry := dset st.telemetry "cpuTemp" cpu }

/-- `publish_telemetry()`: overwrites `telemetry['timeStamp']` with the
current wall-clock timestamp, publishes the serialized telemetry
dictionary to the publish topic with the configured QoS, then prints a
banner and the payload.  Raises `KeyError` if `publishTopic` or
`brokerQoS` is missing, and `TypeError` (after the publish) if the
topic is not a string. -/
def publish_telemetry (ts : String) (st : AgentState) : Outcome :=
  let tel := dset st.telemetry "timeStamp" (JVal.s ts)
  let st1 := { st with telemetry := tel }
  match dget st1.configuration "publishTopic" with
  | none => ⟨st1, [], some (PyErr.keyError "publishTopic")⟩
  | some topic =>
    match dget st1.configuration "brokerQoS" with
    | none => ⟨st1, [], some (PyErr.keyError "brokerQoS")⟩
    | some qos =>
      match strConcat "Publishing this to \x27" topic with
      | Except.error e => ⟨st1, [Effect.publish topic tel qos], some e⟩
      | Except.ok s1 =>
        ⟨st1, [Effect.publish topic tel qos,
               Effect.print (s1 ++ "\x27:"),
               Effect.printMsg tel], none⟩

/-- The fixed second line printed for an unrecognized command
(the literal list from the source). -/
def recognizedLog : Effect :=
  Effect.print "Currently recognized commands are:\n\tpublishTelemetry\n\tchangeTelemetryInterval\n\tchangeSeaLevelPressure\n\tpublishStatus"

/-- The line printed for an unrecognized command name. -/
def unknownLog (c : String) : Effect :=
  Effect.print ("The command \"" ++ c ++ "\" is not recognized.")

/-- `on_message(sub_client, userdata, msg)`: decodes the payload (a
decode failure propagates, there is no try/except), prints it, then
dispatches on `message['command']`.  The `changeTelemetryInterval`
branch reads the old interval, compares, and on a validated change
prints the old interval (string concatenation — raises `TypeError` for
an `int` interval before the assignment), assigns the new interval,
and prints the new one (again a concatenation). -/
def on_message (env : Env) (msg : Inbound) (st : AgentState) : Outcome :=
  match msg with
  | Inbound.malformed => ⟨st, [], some PyErr.jsonDecodeError⟩
  | Inbound.parsed message =>
    let out0 := [Effect.printMsg message]
    match dget message "command" with
    | none => ⟨st, out0 ++ [Effect.print "Message did not contain a command property."], none⟩
    | some command =>
      match strConcat "Processing command \"" command with
      | Except.error e => ⟨st, out0, some e⟩
      | Except.ok s0 =>
        let out1 := out0 ++ [Effect.print (s0 ++ "\"")]
        if command = JVal.s "publishTelemetry" then
          let st1 := poll_telemetry env.cpu st
          let r := publish_telemetry env.ts st1
          match r.error with
          | some e => ⟨r.state, out1 ++ r.output, some e⟩
          | none => ⟨{ r.state with last_publish := env.now }, out1 ++ r.output, none⟩
        else if command = JVal.s "changeTelemetryInterval" then
          match dget st.configuration "publishInterval" with
          | none => ⟨st, out1, some (PyErr.keyError "publishInterval")⟩
          | some old_value =>
            match dget message "value" with
            | none => ⟨st, out1, some (PyErr.keyError "value")⟩
            | some new_value =>
              if old_value ≠ new_value then
                match pyGtInt new_value 4 with
                | Except.error e => ⟨st, out1, some e⟩
                | Except.ok true =>
                  match strConcat "Old publish interval: " old_value with
                  | Except.error e => ⟨st, out1, some e⟩
                  | Except.ok s1 =>
                    let st2 := { st with
                      configuration := dset st.configuration "publishInterval" new_value }
                    match dget st2.configuration "publishInterval" with
                    | none => ⟨st2, out1 ++ [Effect.print s1], some (PyErr.keyError "publishInterval")⟩
                    | some nv =>
                      match strConcat "New publish interval: " nv with
                      | Except.error e => ⟨st2, out1 ++ [Effect.print s1], some e⟩
                      | Except.ok s2 =>
                        ⟨st2, out1 ++ [Effect.print s1, Effect.print s2], none⟩
                | Except.ok false =>
                  ⟨st, out1 ++ [Effect.print "Not changing the telemetry publish interval."], none⟩
              else
                ⟨st, out1 ++ [Effect.print "Not changing the telemetry publish interval."], none⟩
        else if command = JVal.s "publishStatus" then
          let r := publish_telemetry env.ts st
          ⟨r.state, out1 ++ r.output, r.error⟩
        else if command = JVal.s "debug" then
          ⟨st, out1 ++ [Effect.print "<sub_client>", Effect.print "<userdata>"], none⟩
        else
          ⟨st, out1 ++ [unknownLog (pyStr command), recognizedLog], none⟩

/-- `close_mqtt()`: unsubscribes from the control topic, stops the
network loop, disconnects.  The control-topic lookup raises `KeyError`
if the key is absent (before any client call). -/
def close_mqtt (st : AgentState) : List Effect × Option PyErr :=
  match dget st.configuration "controlTopic" with
  | none => ([], some (PyErr.keyError "controlTopic"))
  | some t => ([Effect.unsubscribe t, Effect.loopStop, Effect.disconnect], none)

/-- Outcome of the UDP probe inside `get_ip`: `sock.connect` +
`getsockname` either yield an address or raise. -/
inductive ProbeOutcome where
  | success : String → ProbeOutcome
  | interruptedError : ProbeOutcome
  | osError : ProbeOutcome
deriving DecidableEq, Repr

/-- Raw result of the probe body (the `try` suite of `get_ip`). -/
def probeResult : ProbeOutcome → Except PyErr String
  | ProbeOutcome.success ip => Except.ok ip
  | ProbeOutcome.interruptedError => Except.error PyErr.interruptedError
  | ProbeOutcome.osError => Except.error PyErr.osError

/-- `get_ip()`: the `try/except InterruptedError/except OSError/finally`
block.  Returns the resolved address (or the loopback fallback) paired
with a flag recording that the `finally` clause closed the socket. -/
def get_ip (o : ProbeOutcome) : Except PyErr String × Bool :=
  let ip : Except PyErr String :=
    match probeResult o with
    | Except.error PyErr.interruptedError => Except.ok "127.0.0.1"
    | Except.error PyErr.osError => Except.ok "127.0.0.1"
    | r => r
  (ip, true)

/-- Outcome of one `client.reconnect()` call, supplied by the
environment (broker behavior is external). -/
inductive ReconnectOutcome where
  | ok : ReconnectOutcome
  | timeout : ReconnectOutcome
  | refused : ReconnectOutcome
deriving DecidableEq, Repr

/-- External inputs consumed by one iteration of the `while True` loop:
whether `client.is_connected()` holds, the outcome of a reconnect
attempt (used only when disconnected), the two `epoch_time()` readings
(`t1` for the interval check, `t2` for the `last_publish` assignment),
the `get_timestamp()` reading, the CPU-temperature reading, and whether
a `KeyboardInterrupt` is delivered at the start of this iteration. -/
structure IterEnv where
  connected : Bool
  reconnectOutcome : ReconnectOutcome
  t1 : Int
  t2 : Int
  ts : String
  cpu : JVal
  interrupt : Bool
deriving DecidableEq, Repr

/-- Result of one loop iteration: continue, break out of the loop (the
reconnect-timeout path), or propagate an exception. -/
inductive IterResult where
  | next : AgentState → List Effect → IterResult
  | stop : AgentState → List Effect → IterResult
  | raised : AgentState → List Effect → PyErr → IterResult
deriving DecidableEq, Repr

/-- State reached by a loop iteration, whichever way it ended. -/
def iterState : IterResult → AgentState
  | IterResult.next st _ => st
  | IterResult.stop st _ => st
  | IterResult.raised st _ _ => st

/-- Effects emitted by a loop iteration. -/
def iterOut : IterResult → List Effect
  | IterResult.next _ out => out
  | IterResult.stop _ out => out
  | IterResult.raised _ out _ => out

/-- The interval check at the bottom of the loop:
`current_time = epoch_time(); interval = configuration['publishInterval'];
if current_time - interval > last_publish: poll; publish; last_publish = epoch_time()`.
Raises `KeyError` if `publishInterval` is missing and `TypeError` if it
is a string (int minus str). -/
def publishCheck (it : IterEnv) (st : AgentState) : Outcome :=
  match dget st.configuration "publishInterval" with
  | none => ⟨st, [], some (PyErr.keyError "publishInterval")⟩
  | some intervalV =>
    match intervalV with
    | JVal.s _ => ⟨st, [], some PyErr.typeError⟩
    | JVal.i interval =>
      if it.t1 - interval > st.last_publish then
        let st1 := poll_telemetry it.cpu st
        let r := publish_telemetry it.ts st1
        match r.error with
        | some e => ⟨r.state, r.output, some e⟩
        | none => ⟨{ r.state with last_publish := it.t2 }, r.output, none⟩
      else ⟨st, [], none⟩

/-- One iteration of the `while True` loop: if disconnected, sleep 3
seconds and attempt `client.reconnect()` (a `TimeoutError` there is
caught: print, `close_mqtt()`, `break`; any other exception
propagates); then perform the interval check. -/
def loopIter (it : IterEnv) (st : AgentState) : IterResult :=
  if it.interrupt then IterResult.raised st [] PyErr.keyboardInterrupt
  else
    let recOut : List Effect :=
      if it.connected then [] else [Effect.sleep 3, Effect.reconnect]
    if ¬ it.connected ∧ it.reconnectOutcome = ReconnectOutcome.timeout then
      let c := close_mqtt st
      let out := recOut ++ [Effect.print "Timeout encountered while trying to reconnect to the MQTT broker!"] ++ c.1
      match c.2 with
      | some e => IterResult.raised st out e
      | none => IterResult.stop st out
    else if ¬ it.connected ∧ it.reconnectOutcome = ReconnectOutcome.refused then
      IterResult.raised st recOut PyErr.connectionRefusedError
    else
      let r := publishCheck it st
      match r.error with
      | some e => IterResult.raised r.state (recOut ++ r.output) e
      | none => IterResult.next r.state (recOut ++ r.output)

/-- How a (finite prefix of the) loop run ended: the supplied iteration
trace was exhausted with the loop still running, the loop hit `break`,
or an exception propagated out of the loop. -/
inductive LoopEnd where
  | ranOut : LoopEnd
  | broke : LoopEnd
  | raised : PyErr → LoopEnd
deriving DecidableEq, Repr

/-- Run the `while True` loop over a finite trace of per-iteration
external inputs. -/
def runLoop : List IterEnv → AgentState → AgentState × List Effect × LoopEnd
  | [], st => (st, [], LoopEnd.ranOut)
  | it :: rest, st =>
    match loopIter it st with
    | IterResult.next st2 out =>
      let r := runLoop rest st2
      (r.1, out ++ r.2.1, r.2.2)
    | IterResult.stop st2 out => (st2, out, LoopEnd.broke)
    | IterResult.raised st2 out e => (st2, out, LoopEnd.raised e)

/-- Outcome of the startup `client.connect(...)` call, supplied by the
environment. -/
inductive ConnectOutcome where
  | ok : ConnectOutcome
  | refused : ConnectOutcome
  | timeout : ConnectOutcome
deriving DecidableEq, Repr

/-- External inputs consumed by the startup sequence: config file name,
resolved IP address and hostname, the timestamp reading, the broker's
response to `connect`, and `result_tuple[0]` of `subscribe`. -/
structure StartEnv where
  fname : String
  ip : String
  hostname : String
  ts : String
  connectOutcome : ConnectOutcome
  subscribeCode : Int
deriving DecidableEq, Repr

/-- Module-load state: empty dictionaries except
`telemetry['macAddress']` (set at import time from the MAC), with the
given parsed configuration installed by `json.load`. -/
def initState (mac : String) (cfg : Dict) : AgentState :=
  ⟨cfg, [("macAddress", JVal.s mac)], 0⟩

/-- Lines 129 to 168 of `main`: the startup sequence between the config
load and the `while True` loop — populate the static telemetry fields,
print the banner lines (several of which concatenate raw config values
into `str` literals and therefore raise `TypeError` on non-`str`
values), `connect`, `subscribe`, and `loop_start`. -/
def startup (env : StartEnv) (st : AgentState) : Outcome :=
  let o1 := [Effect.print ("Using " ++ env.fname ++ " as the config file.")]
  let tel3 := dset (dset (dset st.telemetry "ipAddress" (JVal.s env.ip))
                     "host" (JVal.s env.hostname)) "timeStamp" (JVal.s env.ts)
  let tel4 :=
    match dget st.configuration "notes" with
    | some nv => dset tel3 "notes" nv
    | none => tel3
  match dget st.configuration "brokerAddress" with
  | none => ⟨{ st with telemetry := tel4 }, o1, some (PyErr.keyError "brokerAddress")⟩
  | some ba =>
    let tel5 := dset tel4 "brokerAddress" ba
    match dget st.configuration "brokerPort" with
    | none => ⟨{ st with telemetry := tel5 }, o1, some (PyErr.keyError "brokerPort")⟩
    | some bp =>
      let st1 := { st with telemetry := dset tel5 "brokerPort" bp }
      let o2 := o1 ++ [Effect.print ("Hostname: " ++ env.hostname),
                       Effect.print ("IP address: " ++ env.ip),
                       Effect.print ("Current time: " ++ env.ts)]
      match strConcat "Using broker address: " ba with
      | Except.error e => ⟨st1, o2, some e⟩
      | Except.ok sba =>
        let o3 := o2 ++ [Effect.print sba]
        match strConcat "Using broker port: " bp with
        | Except.error e => ⟨st1, o3, some e⟩
        | Except.ok sbp =>
          let o4 := o3 ++ [Effect.print sbp]
          match dget st.configuration "publishTopic" with
          | none => ⟨st1, o4, some (PyErr.keyError "publishTopic")⟩
          | some pt =>
            match strConcat "Publishing to the telemetry topic: \"" pt with
            | Except.error e => ⟨st1, o4, some e⟩
            | Except.ok spt =>
              let o5 := o4 ++ [Effect.print (spt ++ "\"")]
              match dget st.configuration "controlTopic" with
              | none => ⟨st1, o5, some (PyErr.keyError "controlTopic")⟩
              | some ct =>
                match strConcat "Subscribing to the control topic: \"" ct with
                | Except.error e => ⟨st1, o5, some e⟩
                | Except.ok sct =>
                  let o6 := o5 ++ [Effect.print (sct ++ "\"")]
                  match dget st.configuration "brokerQoS" with
                  | none => ⟨st1, o6, some (PyErr.keyError "brokerQoS")⟩
                  | some qos =>
                    let o7 := o6 ++ [Effect.print ("Publishing and subscribing using QoS: " ++ pyStr qos)]
                    match dget st.configuration "publishInterval" with
                    | none => ⟨st1, o7, some (PyErr.keyError "publishInterval")⟩
                    | some iv =>
                      let o8 := o7 ++ [Effect.print ("Waiting " ++ pyStr iv ++ " seconds between publishes (non-blocking).")]
                      match pyToInt bp with
                      | Except.error e => ⟨st1, o8, some e⟩
                      | Except.ok port =>
                        let o9 := o8 ++ [Effect.connect ba port]
                        match env.connectOutcome with
                        | ConnectOutcome.refused => ⟨st1, o9, some PyErr.connectionRefusedError⟩
                        | ConnectOutcome.timeout => ⟨st1, o9, some PyErr.timeoutError⟩
                        | ConnectOutcome.ok =>
                          let o10 := o9 ++ [Effect.subscribe ct qos]
                          if env.subscribeCode = 0 then
                            match strConcat "Successfully subscribed to the control topic: \"" ct with
                            | Except.error e => ⟨st1, o10, some e⟩
                            | Except.ok ssc =>
                              ⟨st1, o10 ++ [Effect.print (ssc ++ "\""), Effect.loopStart], none⟩
                          else
                            ⟨st1, o10 ++ [Effect.loopStart], none⟩

/-- How the process ended: `running` means the supplied iteration trace
ran out with the loop still going (no exit path was taken). -/
inductive ExitKind where
  | running : ExitKind
  | finished : ExitKind
  | interrupted : ExitKind
  | keyErrorExit : ExitKind
  | refusedExit : ExitKind
  | timeoutExit : ExitKind
  | crashed : PyErr → ExitKind
deriving DecidableEq, Repr

/-- Final result of a `main` run over a finite external trace. -/
structure MainResult where
  state : AgentState
  output : List Effect
  exit : ExitKind
deriving DecidableEq, Repr

/-- The `except` clauses of `main` (lines 186 to 196): dispatch on the
exception type.  `KeyboardInterrupt` prints and closes;
`KeyError` and `ConnectionRefusedError` only print (no close);
`TimeoutError` prints and closes; every other exception is uncaught and
crashes the process.  An exception raised inside a handler (a failing
`close_mqtt`) propagates uncaught. -/
def mainHandle (st : AgentState) (out : List Effect) (e : PyErr) : MainResult :=
  match e with
  | PyErr.keyboardInterrupt =>
    let c := close_mqtt st
    let out2 := out ++ [Effect.print "\nKeyboard interrupt detected, exiting...\n"] ++ c.1
    match c.2 with
    | some e2 => ⟨st, out2, ExitKind.crashed e2⟩
    | none => ⟨st, out2, ExitKind.interrupted⟩
  | PyErr.keyError k =>
    ⟨st, out ++ [Effect.print ("Python dictionary key error: \x27" ++ k ++ "\x27")], ExitKind.keyErrorExit⟩
  | PyErr.connectionRefusedError =>
    ⟨st, out ++ [Effect.print "Connection error: [refused]"], ExitKind.refusedExit⟩
  | PyErr.timeoutError =>
    let c := close_mqtt st
    let out2 := out ++ [Effect.print "Timeout encountered while connecting to the MQTT broker!"] ++ c.1
    match c.2 with
    | some e2 => ⟨st, out2, ExitKind.crashed e2⟩
    | none => ⟨st, out2, ExitKind.timeoutExit⟩
  | e2 => ⟨st, out, ExitKind.crashed e2⟩

/-- External inputs for a whole `main` run. -/
structure MainEnv where
  mac : String
  start : StartEnv
  iters : List IterEnv
deriving DecidableEq, Repr

/-- `main(argv)`: config load (given pre-parsed), startup sequence, the
`while True` loop over the supplied trace, and the `except` dispatch. -/
def main (menv : MainEnv) (cfg : Dict) : MainResult :=
  let s := startup menv.start (initState menv.mac cfg)
  match s.error with
  | some e => mainHandle s.state s.output e
  | none =>
    let lr := runLoop menv.iters s.state
    match lr.2.2 with
    | LoopEnd.ranOut => ⟨lr.1, s.output ++ lr.2.1, ExitKind.running⟩
    | LoopEnd.broke => ⟨lr.1, s.output ++ lr.2.1, ExitKind.finished⟩
    | LoopEnd.raised e => mainHandle lr.1 (s.output ++ lr.2.1) e

/-- Whether an effect is a `client.publish` call. -/
def isPublish : Effect → Bool
  | Effect.publish _ _ _ => true
  | _ => false

/-- Number of `client.publish` calls in an effect trace. -/
def countPublish (out : List Effect) : Nat := out.countP isPublish

/-- Whether an effect is a `client.subscribe` call. -/
def isSubscribe : Effect → Bool
  | Effect.subscribe _ _ => true
  | _ => false

/-- Number of `client.subscribe` calls in an effect trace. -/
def countSubs (out : List Effect) : Nat := out.countP isSubscribe

/-- Whether an effect is the `client.loop_stop` call of `close_mqtt`
(emitted exactly once per completed `close_mqtt`). -/
def isLoopStop : Effect → Bool
  | Effect.loopStop => true
  | _ => false

/-- Number of completed `close_mqtt` invocations in an effect trace. -/
def countClose (out : List Effect) : Nat := out.countP isLoopStop

/-- The dictionaries handed to `client.publish` in an effect trace, in
order. -/
def publishedPayloads (out : List Effect) : List Dict :=
  out.filterMap fun e =>
    match e with
    | Effect.publish _ d _ => some d
    | _ => none

/-- A demonstration configuration that is well-formed for the program
(string broker port, integer QoS and interval). -/
def demoConfig : Dict :=
  [("brokerAddress", JVal.s "broker.local"),
   ("brokerPort", JVal.s "1883"),
   ("brokerQoS", JVal.i 1),
   ("publishTopic", JVal.s "telemetry"),
   ("controlTopic", JVal.s "control"),
   ("publishInterval", JVal.i 10)]

/-- Demonstration agent state over `demoConfig`. -/
def demoState : AgentState := initState "AA:BB:CC:DD:EE:FF" demoConfig

/-- Demonstration per-message environment. -/
def demoEnv : Env := ⟨100, "2024-01-01 00:00:00", JVal.i 42⟩

/- ### Dictionary lemmas -/

theorem dget_dset (d : Dict) (k k2 : String) (v : JVal) :
    dget (dset d k v) k2 = if k = k2 then some v else dget d k2 := by
  induction d with
  | nil => simp [dget, dset]
  | cons hd tl ih =>
    obtain ⟨hk, hv⟩ := hd
    by_cases h1 : hk = k
    · subst h1
      by_cases h2 : hk = k2 <;> simp [dget, dset, h2]
    · by_cases h2 : hk = k2
      · subst h2
        have h3 : k ≠ hk := fun h => h1 h.symm
        simp [dget, dset, h1, h3]
      · simp [dget, dset, h1, h2, ih]

theorem dget_dset_self (d : Dict) (k : String) (v : JVal) :
    dget (dset d k v) k = some v := by
  simp [dget_dset]

theorem dget_dset_ne (d : Dict) (k k2 : String) (v : JVal) (h : k ≠ k2) :
    dget (dset d k v) k2 = dget d k2 := by
  simp [dget_dset, h]

/- ### Lemmas about `publish_telemetry` -/

theorem publish_telemetry_state (ts : String) (st : AgentState) :
    (publish_telemetry ts st).state =
      { st with telemetry := dset st.telemetry "timeStamp" (JVal.s ts) } := by
  unfold publish_telemetry
  dsimp only
  repeat' split
  all_goals rfl

theorem publish_telemetry_ok (ts : String) (st : AgentState) (topic : String) (qos : JVal)
    (ht : dget st.configuration "publishTopic" = some (JVal.s topic))
    (hq : dget st.configuration "brokerQoS" = some qos) :
    publish_telemetry ts st =
      ⟨{ st with telemetry := dset st.telemetry "timeStamp" (JVal.s ts) },
       [Effect.publish (JVal.s topic) (dset st.telemetry "timeStamp" (JVal.s ts)) qos,
        Effect.print ("Publishing this to \x27" ++ topic ++ "\x27:"),
        Effect.printMsg (dset st.telemetry "timeStamp" (JVal.s ts))], none⟩ := by
  simp [publish_telemetry, ht, hq, strConcat]

theorem publish_telemetry_noSub (ts : String) (st : AgentState) :
    countSubs (publish_telemetry ts st).output = 0 := by
  unfold publish_telemetry
  dsimp only
  repeat' split
  all_goals rfl

theorem publish_telemetry_noClose (ts : String) (st : AgentState) :
    countClose (publish_telemetry ts st).output = 0 := by
  unfold publish_telemetry
  dsimp only
  repeat' split
  all_goals rfl

/- ### Lemmas about the loop body -/

theorem publishCheck_noSub (it : IterEnv) (st : AgentState) :
    countSubs (publishCheck it st).output = 0 := by
  unfold publishCheck
  dsimp only
  repeat' split
  any_goals rfl
  all_goals exact publish_telemetry_noSub _ _

theorem publishCheck_noClose (it : IterEnv) (st : AgentState) :
    countClose (publishCheck it st).output = 0 := by
  unfold publishCheck
  dsimp only
  repeat' split
  any_goals rfl
  all_goals exact publish_telemetry_noClose _ _

theorem publishCheck_config (it : IterEnv) (st : AgentState) :
    (publishCheck it st).state.configuration = st.configuration := by
  unfold publishCheck
  dsimp only
  repeat' split
  any_goals rfl
  all_goals (rw [publish_telemetry_state]; rfl)

theorem close_mqtt_spec (st : AgentState) :
    close_mqtt st = ([], some (PyErr.keyError "controlTopic")) ∨
    ∃ t, dget st.configuration "controlTopic" = some t ∧
      close_mqtt st = ([Effect.unsubscribe t, Effect.loopStop, Effect.disconnect], none) := by
  unfold close_mqtt
  cases h : dget st.configuration "controlTopic" with
  | none => exact Or.inl rfl
  | some t => exact Or.inr ⟨t, rfl, rfl⟩

theorem close_mqtt_ok_count (st : AgentState) (h : (close_mqtt st).2 = none) :
    countClose (close_mqtt st).1 = 1 := by
  rcases close_mqtt_spec st with hc | ⟨t, _, hc⟩ <;> rw [hc] at h ⊢
  · simp at h
  · rfl

theorem close_mqtt_err_nil (st : AgentState) (e : PyErr) (h : (close_mqtt st).2 = some e) :
    (close_mqtt st).1 = [] := by
  rcases close_mqtt_spec st with hc | ⟨t, _, hc⟩ <;> rw [hc] at h ⊢
  simp at h

/-- Effects of the reconnect attempt prefix of a loop iteration. -/
theorem recOut_counts (b : Bool) :
    countClose (if b then ([] : List Effect) else [Effect.sleep 3, Effect.reconnect]) = 0 ∧
    countSubs (if b then ([] : List Effect) else [Effect.sleep 3, Effect.reconnect]) = 0 := by
  cases b <;> exact ⟨rfl, rfl⟩

theorem countSubs_append (a b : List Effect) :
    countSubs (a ++ b) = countSubs a + countSubs b := by
  simp [countSubs, List.countP_append]

theorem countClose_append (a b : List Effect) :
    countClose (a ++ b) = countClose a + countClose b := by
  simp [countClose, List.countP_append]

theorem countPublish_append (a b : List Effect) :
    countPublish (a ++ b) = countPublish a + countPublish b := by
  simp [countPublish, List.countP_append]

theorem countSubs_nil : countSubs [] = 0 := rfl

theorem countClose_nil : countClose [] = 0 := rfl

theorem countPublish_nil : countPublish [] = 0 := rfl

theorem countSubs_sleep_reconnect : countSubs [Effect.sleep 3, Effect.reconnect] = 0 := rfl

theorem countClose_sleep_reconnect : countClose [Effect.sleep 3, Effect.reconnect] = 0 := rfl

theorem countSubs_print (s : String) : countSubs [Effect.print s] = 0 := rfl

theorem countClose_print (s : String) : countClose [Effect.print s] = 0 := rfl

theorem close_mqtt_noSub (st : AgentState) : countSubs (close_mqtt st).1 = 0 := by
  rcases close_mqtt_spec st with hc | ⟨t, _, hc⟩ <;> rw [hc] <;> rfl

theorem loopIter_config (it : IterEnv) (st : AgentState) :
    (iterState (loopIter it st)).configuration = st.configuration := by
  unfold loopIter
  dsimp only
  repeat' split
  any_goals rfl
  all_goals (dsimp only [iterState]; exact publishCheck_config it st)

theorem loopIter_subs (it : IterEnv) (st : AgentState) :
    countSubs (iterOut (loopIter it st)) = 0 := by
  unfold loopIter
  dsimp only
  repeat' split
  all_goals simp only [iterOut, countSubs_append, countSubs_nil, countSubs_sleep_reconnect,
    countSubs_print, close_mqtt_noSub, publishCheck_noSub]

theorem loopIter_close_next (it : IterEnv) (st : AgentState) (st2 : AgentState) (out : List Effect)
    (h : loopIter it st = IterResult.next st2 out) : countClose out = 0 := by
  unfold loopIter at h
  dsimp only at h
  split at h
  · simp at h
  · split at h
    · split at h
      · simp at h
      · simp at h
    · split at h
      · simp at h
      · split at h
        · simp at h
        · injection h with h1 h2
          subst h2
          split
          · simp only [countClose_append, countClose_nil, publishCheck_noClose]
          · simp only [countClose_append, countClose_sleep_reconnect, publishCheck_noClose]

theorem loopIter_close_stop (it : IterEnv) (st : AgentState) (st2 : AgentState) (out : List Effect)
    (h : loopIter it st = IterResult.stop st2 out) : countClose out = 1 := by
  unfold loopIter at h
  dsimp only at h
  split at h
  · simp at h
  · split at h
    · split at h
      · simp at h
      · injection h with h1 h2
        subst h2
        rename_i heq
        rw [countClose_append, countClose_append, close_mqtt_ok_count st heq]
        split
        · rfl
        · rfl
    · split at h
      · simp at h
      · split at h
        · simp at h
        · simp at h

theorem loopIter_close_raised (it : IterEnv) (st : AgentState) (st2 : AgentState)
    (out : List Effect) (e : PyErr)
    (h : loopIter it st = IterResult.raised st2 out e) : countClose out = 0 := by
  unfold loopIter at h
  dsimp only at h
  split at h
  · injection h with h1 h2 h3
    subst h2
    rfl
  · split at h
    · split at h
      · injection h with h1 h2 h3
        subst h2
        rename_i heq
        rw [countClose_append, countClose_append, close_mqtt_err_nil st _ heq]
        split
        · rfl
        · rfl
      · simp at h
    · split at h
      · injection h with h1 h2 h3
        subst h2
        split
        · rfl
        · rfl
      · split at h
        · injection h with h1 h2 h3
          subst h2
          split
          · simp only [countClose_append, countClose_nil, publishCheck_noClose]
          · simp only [countClose_append, countClose_sleep_reconnect, publishCheck_noClose]
        · simp at h

/- ### Lemmas about the whole loop -/

theorem runLoop_spec (its : List IterEnv) (st : AgentState) :
    (runLoop its st).1.configuration = st.configuration ∧
    ((runLoop its st).2.2 = LoopEnd.broke → countClose (runLoop its st).2.1 = 1) ∧
    ((runLoop its st).2.2 = LoopEnd.ranOut → countClose (runLoop its st).2.1 = 0) ∧
    (∀ e, (runLoop its st).2.2 = LoopEnd.raised e → countClose (runLoop its st).2.1 = 0) := by
  induction its generalizing st with
  | nil => refine ⟨rfl, fun h => ?_, fun _ => rfl, fun e h => ?_⟩ <;> simp [runLoop] at h
  | cons it rest ih =>
    have hcfg := loopIter_config it st
    cases h : loopIter it st with
    | next st2 out =>
      rw [h] at hcfg
      dsimp only [iterState] at hcfg
      have hc := loopIter_close_next it st st2 out h
      have ihr := ih st2
      refine ⟨?_, ?_, ?_, ?_⟩
      · simp only [runLoop, h]
        exact ihr.1.trans hcfg
      · intro hend
        simp only [runLoop, h] at hend ⊢
        rw [countClose_append, hc, ihr.2.1 hend]
      · intro hend
        simp only [runLoop, h] at hend ⊢
        rw [countClose_append, hc, ihr.2.2.1 hend]
      · intro e hend
        simp only [runLoop, h] at hend ⊢
        rw [countClose_append, hc, ihr.2.2.2 e hend]
    | stop st2 out =>
      rw [h] at hcfg
      dsimp only [iterState] at hcfg
      have hc := loopIter_close_stop it st st2 out h
      refine ⟨?_, ?_, ?_, ?_⟩
      · simp only [runLoop, h]
        exact hcfg
      · intro _
        simp only [runLoop, h]
        exact hc
      · intro hend
        simp only [runLoop, h] at hend
        simp at hend
      · intro e hend
        simp only [runLoop, h] at hend
        simp at hend
    | raised st2 out e0 =>
      rw [h] at hcfg
      dsimp only [iterState] at hcfg
      have hc := loopIter_close_raised it st st2 out e0 h
      refine ⟨?_, ?_, ?_, ?_⟩
      · simp only [runLoop, h]
        exact hcfg
      · intro hend
        simp only [runLoop, h] at hend
        simp at hend
      · intro hend
        simp only [runLoop, h] at hend
        simp at hend
      · intro e hend
        simp only [runLoop, h]
        exact hc

theorem runLoop_subs (its : List IterEnv) (st : AgentState) :
    countSubs (runLoop its st).2.1 = 0 := by
  induction its generalizing st with
  | nil => rfl
  | cons it rest ih =>
    have hs := loopIter_subs it st
    cases h : loopIter it st with
    | next st2 out =>
      rw [h] at hs
      dsimp only [iterOut] at hs
      simp only [runLoop, h]
      rw [countSubs_append, hs, ih st2]
    | stop st2 out =>
      rw [h] at hs
      dsimp only [iterOut] at hs
      simp only [runLoop, h]
      exact hs
    | raised st2 out e0 =>
      rw [h] at hs
      dsimp only [iterOut] at hs
      simp only [runLoop, h]
      exact hs

/- ### Demonstration inputs for claim C6 -/

/-- A telemetry dictionary as held between publishes. -/
def c6Telemetry : Dict :=
  [("macAddress", JVal.s "AA:BB:CC:DD:EE:FF"),
   ("timeStamp", JVal.s "2020-01-01 00:00:00"),
   ("cpuTemp", JVal.i 41)]

/-- Agent state holding `c6Telemetry` with `last_publish = 50`. -/
def c6State : AgentState := ⟨demoConfig, c6Telemetry, 50⟩

/- ### Claim theorems -/

/-- C10: `get_ip` is total at its public interface: for every outcome of
the UDP probe the `finally` clause closes the socket, the function
returns a string (it never propagates the error), the `OSError` and
`InterruptedError` outcomes yield the loopback address `127.0.0.1`, and
a successful probe yields the probed address. -/
theorem get_ip_total (o : ProbeOutcome) :
    (get_ip o).2 = true ∧
    (∃ s, (get_ip o).1 = Except.ok s) ∧
    ((o = ProbeOutcome.interruptedError ∨ o = ProbeOutcome.osError) →
      (get_ip o).1 = Except.ok "127.0.0.1") ∧
    (∀ ip, o = ProbeOutcome.success ip → (get_ip o).1 = Except.ok ip) := by
  cases o with
  | success ip =>
    refine ⟨rfl, ⟨ip, rfl⟩, ?_, ?_⟩
    · rintro (h | h) <;> cases h
    · intro ip2 h
      cases h
      rfl
  | interruptedError =>
    refine ⟨rfl, ⟨"127.0.0.1", rfl⟩, fun _ => rfl, ?_⟩
    intro ip h
    cases h
  | osError =>
    refine ⟨rfl, ⟨"127.0.0.1", rfl⟩, fun _ => rfl, ?_⟩
    intro ip h
    cases h

/-- Witness for C10: evaluated at the `OSError` probe outcome. -/
theorem get_ip_total_witness :
    (get_ip ProbeOutcome.osError).1 = Except.ok "127.0.0.1" ∧
    (get_ip ProbeOutcome.osError).2 = true := by
  have h := get_ip_total ProbeOutcome.osError
  exact ⟨h.2.2.1 (Or.inr rfl), h.1⟩

/-- C1: with the integer interval 10 in the configuration (as the
external contract requires) and the message
`\x7b"command": "changeTelemetryInterval", "value": 7\x7d` (an integer
value with 7 > 4 and 7 ≠ 10), the handler raises `TypeError` at the
`"Old publish interval: " + old_value` concatenation, before the
assignment, so `publishInterval` remains 10 and the whole state is
unchanged — the code never performs the update the claim (and the
surrounding code lines) intend. -/
theorem changeInterval_crashes_before_update :
    (on_message demoEnv
      (Inbound.parsed [("command", JVal.s "changeTelemetryInterval"), ("value", JVal.i 7)])
      demoState).error = some PyErr.typeError ∧
    dget (on_message demoEnv
      (Inbound.parsed [("command", JVal.s "changeTelemetryInterval"), ("value", JVal.i 7)])
      demoState).state.configuration "publishInterval" = some (JVal.i 10) ∧
    (on_message demoEnv
      (Inbound.parsed [("command", JVal.s "changeTelemetryInterval"), ("value", JVal.i 7)])
      demoState).state = demoState := by
  decide

/-- Counterexample for C2: an unparseable inbound payload makes
`on_message` propagate `json.JSONDecodeError` (there is no try/except
around `json.loads`), contradicting the claim that the handler never
crashes the message-delivery flow. -/
theorem malformed_payload_raises_demo :
    (on_message demoEnv Inbound.malformed demoState).error = some PyErr.jsonDecodeError := rfl

/-- C2 (amended): a malformed payload causes no mutation and no publish
in either form — an unparseable payload leaves the state untouched but
propagates a decode error out of the handler, while a payload lacking a
`command` field is rejected cleanly (no mutation, no publish, no
error). -/
theorem malformed_no_mutation (env : Env) (st : AgentState) (m : Dict)
    (hm : dget m "command" = none) :
    ((on_message env Inbound.malformed st).state = st ∧
     (on_message env Inbound.malformed st).error = some PyErr.jsonDecodeError ∧
     countPublish (on_message env Inbound.malformed st).output = 0) ∧
    ((on_message env (Inbound.parsed m) st).state = st ∧
     (on_message env (Inbound.parsed m) st).error = none ∧
     countPublish (on_message env (Inbound.parsed m) st).output = 0) := by
  refine ⟨⟨rfl, rfl, rfl⟩, ?_⟩
  simp [on_message, hm, countPublish, isPublish]

/-- Witness for C2: evaluated at a payload with no `command` field. -/
theorem malformed_no_mutation_witness :
    dget [("value", JVal.i 3)] "command" = none ∧
    (on_message demoEnv (Inbound.parsed [("value", JVal.i 3)]) demoState).state = demoState := by
  have h := malformed_no_mutation demoEnv demoState [("value", JVal.i 3)] (by decide)
  exact ⟨by decide, h.2.1⟩

/-- Counterexample for C8: `debug` is a well-formed command that is not
one of publishTelemetry / changeTelemetryInterval / publishStatus, yet
the processor does not log it as unknown (it has its own handler
branch), contradicting the claim. -/
theorem debug_not_logged_unknown_demo :
    dget [("command", JVal.s "debug")] "command" = some (JVal.s "debug") ∧
    unknownLog "debug" ∉
      (on_message demoEnv (Inbound.parsed [("command", JVal.s "debug")]) demoState).output ∧
    recognizedLog ∉
      (on_message demoEnv (Inbound.parsed [("command", JVal.s "debug")]) demoState).output := by
  decide

/-- C8 (amended): for every well-formed message whose command is a
string other than publishTelemetry, changeTelemetryInterval,
publishStatus, and debug, the processor prints the unknown-command line
naming the command, prints the fixed recognized-commands list, performs
no mutation, and raises nothing. -/
theorem unknown_command_logged (env : Env) (st : AgentState) (m : Dict) (c : String)
    (hc : dget m "command" = some (JVal.s c))
    (h1 : c ≠ "publishTelemetry") (h2 : c ≠ "changeTelemetryInterval")
    (h3 : c ≠ "publishStatus") (h4 : c ≠ "debug") :
    unknownLog c ∈ (on_message env (Inbound.parsed m) st).output ∧
    recognizedLog ∈ (on_message env (Inbound.parsed m) st).output ∧
    (on_message env (Inbound.parsed m) st).state = st ∧
    (on_message env (Inbound.parsed m) st).error = none := by
  simp [on_message, hc, strConcat, h1, h2, h3, h4, pyStr]

/-- Witness for C8: evaluated at the command name `bogus`. -/
theorem unknown_command_logged_witness :
    unknownLog "bogus" ∈
      (on_message demoEnv (Inbound.parsed [("command", JVal.s "bogus")]) demoState).output ∧
    (on_message demoEnv (Inbound.parsed [("command", JVal.s "bogus")]) demoState).state = demoState := by
  have h := unknown_command_logged demoEnv demoState [("command", JVal.s "bogus")] "bogus"
    (by decide) (by decide) (by decide) (by decide) (by decide)
  exact ⟨h.1, h.2.2.1⟩

/-- Counterexample for C6: handling `publishStatus` publishes the held
record with its `timeStamp` overwritten to the fresh wall-clock reading,
so the published payload is not the previously held telemetry record
(they differ at `timeStamp`), while `last_publish` stays 50. -/
theorem publishStatus_fresh_timestamp_demo :
    publishedPayloads (on_message demoEnv
        (Inbound.parsed [("command", JVal.s "publishStatus")]) c6State).output ≠
      [c6State.telemetry] ∧
    publishedPayloads (on_message demoEnv
        (Inbound.parsed [("command", JVal.s "publishStatus")]) c6State).output =
      [dset c6Telemetry "timeStamp" (JVal.s "2024-01-01 00:00:00")] ∧
    (on_message demoEnv
        (Inbound.parsed [("command", JVal.s "publishStatus")]) c6State).state.last_publish = 50 := by
  decide

/-- C6 (amended): handling `publishStatus` leaves `last_publish` and the
configuration unchanged, does not resample any metric (every telemetry
field except `timeStamp` is unchanged), raises nothing, and publishes
exactly the held record with only `timeStamp` overwritten to the
current wall-clock time. -/
theorem publishStatus_frame (env : Env) (st : AgentState) (m : Dict) (topic : String) (qos : JVal)
    (hm : dget m "command" = some (JVal.s "publishStatus"))
    (ht : dget st.configuration "publishTopic" = some (JVal.s topic))
    (hq : dget st.configuration "brokerQoS" = some qos) :
    (on_message env (Inbound.parsed m) st).error = none ∧
    (on_message env (Inbound.parsed m) st).state.last_publish = st.last_publish ∧
    (on_message env (Inbound.parsed m) st).state.configuration = st.configuration ∧
    (on_message env (Inbound.parsed m) st).state.telemetry =
      dset st.telemetry "timeStamp" (JVal.s env.ts) ∧
    publishedPayloads (on_message env (Inbound.parsed m) st).output =
      [dset st.telemetry "timeStamp" (JVal.s env.ts)] ∧
    ∀ k, k ≠ "timeStamp" →
      dget (on_message env (Inbound.parsed m) st).state.telemetry k = dget st.telemetry k := by
  have hp := publish_telemetry_ok env.ts st topic qos ht hq
  have n1 : ("publishStatus" = "publishTelemetry") = False := eq_false (by decide)
  have n2 : ("publishStatus" = "changeTelemetryInterval") = False := eq_false (by decide)
  simp only [on_message, hm, strConcat, hp, JVal.s.injEq, n1, n2, eq_self_iff_true,
    if_false, if_true]
  refine ⟨trivial, trivial, trivial, trivial, by simp [publishedPayloads], ?_⟩
  intro k hk
  rw [dget_dset, if_neg (fun h => hk h.symm)]

/-- Witness for C6: evaluated at the demonstration state. -/
theorem publishStatus_frame_witness :
    (on_message demoEnv (Inbound.parsed [("command", JVal.s "publishStatus")]) c6State).error = none ∧
    (on_message demoEnv
        (Inbound.parsed [("command", JVal.s "publishStatus")]) c6State).state.last_publish =
      c6State.last_publish := by
  have h := publishStatus_frame demoEnv c6State [("command", JVal.s "publishStatus")]
    "telemetry" (JVal.i 1) (by decide) (by decide) (by decide)
  exact ⟨h.1, h.2.1⟩

/- ### Configuration-preservation lemmas (claim C9) -/

theorem startup_config (env : StartEnv) (st : AgentState) :
    (startup env st).state.configuration = st.configuration := by
  unfold startup
  dsimp only
  repeat' split
  all_goals rfl

theorem mainHandle_state (st : AgentState) (out : List Effect) (e : PyErr) :
    (mainHandle st out e).state = st := by
  unfold mainHandle
  dsimp only
  repeat' split
  all_goals rfl

theorem on_message_config (env : Env) (msg : Inbound) (st : AgentState) :
    (on_message env msg st).state.configuration = st.configuration ∨
    (∃ (m : Dict) (ov nv : JVal),
      msg = Inbound.parsed m ∧
      dget m "command" = some (JVal.s "changeTelemetryInterval") ∧
      dget st.configuration "publishInterval" = some ov ∧
      dget m "value" = some nv ∧ ov ≠ nv ∧ pyGtInt nv 4 = Except.ok true ∧
      (on_message env msg st).state.configuration =
        dset st.configuration "publishInterval" nv) := by
  cases msg with
  | malformed => exact Or.inl rfl
  | parsed m =>
    unfold on_message
    dsimp only
    cases hcmd : dget m "command" with
    | none => exact Or.inl rfl
    | some command =>
      dsimp only
      cases hsc : strConcat "Processing command \"" command with
      | error e => exact Or.inl rfl
      | ok s0 =>
        dsimp only
        by_cases h1 : command = JVal.s "publishTelemetry"
        · rw [if_pos h1]
          cases hpe : (publish_telemetry env.ts (poll_telemetry env.cpu st)).error with
          | some e =>
            left
            dsimp only
            rw [publish_telemetry_state]
            rfl
          | none =>
            left
            dsimp only
            rw [publish_telemetry_state]
            rfl
        · rw [if_neg h1]
          by_cases h2 : command = JVal.s "changeTelemetryInterval"
          · rw [if_pos h2]
            cases hold : dget st.configuration "publishInterval" with
            | none => exact Or.inl rfl
            | some old_value =>
              dsimp only
              cases hval : dget m "value" with
              | none => exact Or.inl rfl
              | some new_value =>
                dsimp only
                by_cases hne : old_value ≠ new_value
                · rw [if_pos hne]
                  cases hgt : pyGtInt new_value 4 with
                  | error e => exact Or.inl rfl
                  | ok b =>
                    cases b with
                    | false => exact Or.inl rfl
                    | true =>
                      dsimp only
                      cases hsc2 : strConcat "Old publish interval: " old_value with
                      | error e => exact Or.inl rfl
                      | ok s1 =>
                        right
                        refine ⟨m, old_value, new_value, rfl, ?_, rfl, hval, hne, hgt, ?_⟩
                        · rw [hcmd, h2]
                        · dsimp only
                          cases hnv : dget (dset st.configuration "publishInterval" new_value) "publishInterval" with
                          | none => rfl
                          | some nv2 =>
                            dsimp only
                            cases strConcat "New publish interval: " nv2 <;> rfl
                · rw [if_neg hne]
                  exact Or.inl rfl
          · rw [if_neg h2]
            by_cases h3 : command = JVal.s "publishStatus"
            · rw [if_pos h3]
              left
              dsimp only
              rw [publish_telemetry_state]
            · rw [if_neg h3]
              by_cases h4 : command = JVal.s "debug"
              · rw [if_pos h4]
                exact Or.inl rfl
              · rw [if_neg h4]
                exact Or.inl rfl

theorem main_config (menv : MainEnv) (cfg : Dict) :
    (main menv cfg).state.configuration = cfg := by
  unfold main
  dsimp only
  have hs := startup_config menv.start (initState menv.mac cfg)
  have hl := (runLoop_spec menv.iters (startup menv.start (initState menv.mac cfg)).state).1
  split
  · rw [mainHandle_state]
    exact hs
  · split
    · exact hl.trans hs
    · exact hl.trans hs
    · rw [mainHandle_state]
      exact hl.trans hs

/-- C9: after configuration load, the only mutation of any configuration
field anywhere in the agent is the `publishInterval` update inside the
validated `changeTelemetryInterval` branch of `on_message` (validated:
the new value is present, differs from the old one, and compares
greater than 4); every loop iteration (scheduled publish and reconnect
handling), every `publish_telemetry` call, the startup sequence, and
every whole `main` run (covering shutdown paths) leave the
configuration unchanged. -/
theorem config_mutation_only_validated_interval :
    (∀ (env : Env) (msg : Inbound) (st : AgentState),
      (on_message env msg st).state.configuration = st.configuration ∨
      (∃ (m : Dict) (ov nv : JVal),
        msg = Inbound.parsed m ∧
        dget m "command" = some (JVal.s "changeTelemetryInterval") ∧
        dget st.configuration "publishInterval" = some ov ∧
        dget m "value" = some nv ∧ ov ≠ nv ∧ pyGtInt nv 4 = Except.ok true ∧
        (on_message env msg st).state.configuration =
          dset st.configuration "publishInterval" nv)) ∧
    (∀ (it : IterEnv) (st : AgentState),
      (iterState (loopIter it st)).configuration = st.configuration) ∧
    (∀ (ts : String) (st : AgentState),
      (publish_telemetry ts st).state.configuration = st.configuration) ∧
    (∀ (env : StartEnv) (st : AgentState),
      (startup env st).state.configuration = st.configuration) ∧
    (∀ (menv : MainEnv) (cfg : Dict),
      (main menv cfg).state.configuration = cfg) := by
  refine ⟨on_message_config, loopIter_config, ?_, startup_config, main_config⟩
  intro ts st
  rw [publish_telemetry_state]

/- ### Publish-cadence lemmas (claim C3) -/

theorem loopIter_idle (it : IterEnv) (st : AgentState) (N : Int)
    (hint : it.interrupt = false) (hconn : it.connected = true)
    (hN : dget st.configuration "publishInterval" = some (JVal.i N))
    (hle : it.t1 ≤ st.last_publish + N) :
    loopIter it st = IterResult.next st [] := by
  have hng : ¬(it.t1 - N > st.last_publish) := by omega
  simp [loopIter, publishCheck, hint, hconn, hN, hng]

theorem loopIter_fire (it : IterEnv) (st : AgentState) (N : Int) (topic : String) (qos : JVal)
    (hint : it.interrupt = false) (hconn : it.connected = true)
    (hN : dget st.configuration "publishInterval" = some (JVal.i N))
    (ht : dget st.configuration "publishTopic" = some (JVal.s topic))
    (hq : dget st.configuration "brokerQoS" = some qos)
    (hgt : it.t1 > st.last_publish + N) :
    loopIter it st = IterResult.next
      ⟨st.configuration,
       dset (dset st.telemetry "cpuTemp" it.cpu) "timeStamp" (JVal.s it.ts), it.t2⟩
      [Effect.publish (JVal.s topic)
         (dset (dset st.telemetry "cpuTemp" it.cpu) "timeStamp" (JVal.s it.ts)) qos,
       Effect.print ("Publishing this to \x27" ++ topic ++ "\x27:"),
       Effect.printMsg (dset (dset st.telemetry "cpuTemp" it.cpu) "timeStamp" (JVal.s it.ts))] := by
  have hg : it.t1 - N > st.last_publish := by omega
  have hp := publish_telemetry_ok it.ts (poll_telemetry it.cpu st) topic qos ht hq
  simp only [poll_telemetry] at hp
  simp [loopIter, publishCheck, hint, hconn, hN, hg, hp, poll_telemetry]

theorem runLoop_cadence (pre : List IterEnv) (it : IterEnv) (st : AgentState)
    (N : Int) (topic : String) (qos : JVal)
    (hN : dget st.configuration "publishInterval" = some (JVal.i N))
    (ht : dget st.configuration "publishTopic" = some (JVal.s topic))
    (hq : dget st.configuration "brokerQoS" = some qos)
    (hpre : ∀ x ∈ pre, x.connected = true ∧ x.interrupt = false ∧ x.t1 ≤ st.last_publish + N)
    (hconn : it.connected = true) (hint : it.interrupt = false)
    (hgt : it.t1 > st.last_publish + N) :
    runLoop pre st = (st, [], LoopEnd.ranOut) ∧
    runLoop (pre ++ [it]) st =
      (⟨st.configuration,
        dset (dset st.telemetry "cpuTemp" it.cpu) "timeStamp" (JVal.s it.ts), it.t2⟩,
       [Effect.publish (JVal.s topic)
          (dset (dset st.telemetry "cpuTemp" it.cpu) "timeStamp" (JVal.s it.ts)) qos,
        Effect.print ("Publishing this to \x27" ++ topic ++ "\x27:"),
        Effect.printMsg (dset (dset st.telemetry "cpuTemp" it.cpu) "timeStamp" (JVal.s it.ts))],
       LoopEnd.ranOut) := by
  induction pre with
  | nil =>
    refine ⟨rfl, ?_⟩
    have hf := loopIter_fire it st N topic qos hint hconn hN ht hq hgt
    simp [runLoop, hf]
  | cons x rest ih =>
    obtain ⟨hc, hi, hle⟩ := hpre x (List.mem_cons_self x rest)
    have hx := loopIter_idle x st N hi hc hN hle
    have hr := ih (fun y hy => hpre y (List.mem_cons_of_mem x hy))
    constructor
    · simp [runLoop, hx, hr.1]
    · simp [runLoop, hx, hr.2]

/-- C3: over any run of loop iterations with the agent connected, no
interrupt, `publishInterval = N`, and `LastPublishTimestamp = T`: no
iteration whose clock reading t1 satisfies t1 ≤ T + N publishes (the
state is completely untouched), and the first iteration whose reading
strictly exceeds T + N publishes exactly once, samples the CPU metric
into the telemetry record, and sets `last_publish` to that iteration's
current time (the second `epoch_time()` reading, t2). -/
theorem publish_cadence (pre : List IterEnv) (it : IterEnv) (st : AgentState)
    (N T : Int) (topic : String) (qos : JVal)
    (hT : st.last_publish = T)
    (hN : dget st.configuration "publishInterval" = some (JVal.i N))
    (ht : dget st.configuration "publishTopic" = some (JVal.s topic))
    (hq : dget st.configuration "brokerQoS" = some qos)
    (hpre : ∀ x ∈ pre, x.connected = true ∧ x.interrupt = false ∧ x.t1 ≤ T + N)
    (hconn : it.connected = true) (hint : it.interrupt = false)
    (hgt : it.t1 > T + N) :
    runLoop pre st = (st, [], LoopEnd.ranOut) ∧
    countPublish (runLoop pre st).2.1 = 0 ∧
    countPublish (runLoop (pre ++ [it]) st).2.1 = 1 ∧
    (runLoop (pre ++ [it]) st).1.last_publish = it.t2 ∧
    dget (runLoop (pre ++ [it]) st).1.telemetry "cpuTemp" = some it.cpu ∧
    (runLoop (pre ++ [it]) st).2.2 = LoopEnd.ranOut := by
  subst hT
  have h := runLoop_cadence pre it st N topic qos hN ht hq hpre hconn hint hgt
  refine ⟨h.1, ?_, ?_, ?_, ?_, ?_⟩
  · rw [h.1]
    rfl
  · rw [h.2]
    rfl
  · rw [h.2]
  · rw [h.2]
    dsimp only
    rw [dget_dset_ne _ _ _ _ (by decide), dget_dset_self]
  · rw [h.2]

/-- Witness for C3: two idle iterations at t = 5 and t = 9 (both ≤
T + N = 0 + 10) followed by the firing iteration at t1 = 11 > 10 with
second clock reading t2 = 12. -/
theorem publish_cadence_witness :
    countPublish (runLoop
      ([⟨true, ReconnectOutcome.ok, 5, 5, "a", JVal.i 41, false⟩,
        ⟨true, ReconnectOutcome.ok, 9, 9, "a", JVal.i 41, false⟩] ++
       [⟨true, ReconnectOutcome.ok, 11, 12, "b", JVal.i 42, false⟩]) demoState).2.1 = 1 ∧
    (runLoop
      ([⟨true, ReconnectOutcome.ok, 5, 5, "a", JVal.i 41, false⟩,
        ⟨true, ReconnectOutcome.ok, 9, 9, "a", JVal.i 41, false⟩] ++
       [⟨true, ReconnectOutcome.ok, 11, 12, "b", JVal.i 42, false⟩]) demoState).1.last_publish = 12 := by
  have h := publish_cadence
    [⟨true, ReconnectOutcome.ok, 5, 5, "a", JVal.i 41, false⟩,
     ⟨true, ReconnectOutcome.ok, 9, 9, "a", JVal.i 41, false⟩]
    ⟨true, ReconnectOutcome.ok, 11, 12, "b", JVal.i 42, false⟩
    demoState 10 0 "telemetry" (JVal.i 1)
    rfl (by decide) (by decide) (by decide)
    (by
      intro x hx
      simp only [List.mem_cons, List.not_mem_nil, or_false] at hx
      rcases hx with hx | hx <;> (subst hx; exact ⟨rfl, rfl, by decide⟩))
    rfl rfl (by decide)
  exact ⟨h.2.2.1, h.2.2.2.1⟩

/- ### Startup lemmas (claim C4) -/

/-- A configuration that is valid per the spec's external-interface
contract, with `brokerPort` an integer. -/
def c4IntPortConfig : Dict :=
  [("brokerAddress", JVal.s "broker.local"),
   ("brokerPort", JVal.i 1883),
   ("brokerQoS", JVal.i 1),
   ("publishTopic", JVal.s "telemetry"),
   ("controlTopic", JVal.s "control"),
   ("publishInterval", JVal.i 10)]

/-- Demonstration startup environment: probe and broker cooperate. -/
def demoStartEnv : StartEnv :=
  ⟨"config.json", "192.168.1.5", "pi", "2024-01-01 00:00:00", ConnectOutcome.ok, 0⟩

/-- Counterexample for C4: on a configuration that is valid per the
contract (`brokerPort` an integer), the startup sequence raises
`TypeError` at `print("Using broker port: " + configuration[\x27brokerPort\x27])`
(line 149), which no `except` clause catches, instead of running to
completion as the claim states. -/
theorem startup_int_port_raises_demo :
    (startup demoStartEnv (initState "AA:BB:CC:DD:EE:FF" c4IntPortConfig)).error =
      some PyErr.typeError ∧
    (main ⟨"AA:BB:CC:DD:EE:FF", demoStartEnv, []⟩ c4IntPortConfig).exit =
      ExitKind.crashed PyErr.typeError := by
  constructor
  · rfl
  · rfl

/-- C4 (amended): for every configuration valid per the contract except
that `brokerPort` is a decimal-numeral string (which is what the
program actually requires: line 149 concatenates it into a `str` and
line 162 converts it with `int(...)`), the startup sequence completes
without raising: it issues the `connect` and `subscribe` calls and
populates the telemetry record's static identity fields. -/
theorem startup_string_port_ok (env : StartEnv) (st : AgentState)
    (A P T C : String) (p q n : Int)
    (hba : dget st.configuration "brokerAddress" = some (JVal.s A))
    (hbp : dget st.configuration "brokerPort" = some (JVal.s P))
    (hport : pyToInt (JVal.s P) = Except.ok p)
    (hqos : dget st.configuration "brokerQoS" = some (JVal.i q))
    (hqr : 0 ≤ q ∧ q ≤ 2)
    (hpt : dget st.configuration "publishTopic" = some (JVal.s T))
    (hct : dget st.configuration "controlTopic" = some (JVal.s C))
    (hpi : dget st.configuration "publishInterval" = some (JVal.i n))
    (hn : n > 4)
    (hco : env.connectOutcome = ConnectOutcome.ok) :
    (startup env st).error = none ∧
    Effect.connect (JVal.s A) p ∈ (startup env st).output ∧
    Effect.subscribe (JVal.s C) (JVal.i q) ∈ (startup env st).output ∧
    dget (startup env st).state.telemetry "ipAddress" = some (JVal.s env.ip) ∧
    dget (startup env st).state.telemetry "host" = some (JVal.s env.hostname) ∧
    dget (startup env st).state.telemetry "brokerAddress" = some (JVal.s A) ∧
    dget (startup env st).state.telemetry "brokerPort" = some (JVal.s P) := by
  have f1 : ("brokerPort" = "ipAddress") = False := eq_false (by decide)
  have f2 : ("brokerPort" = "host") = False := eq_false (by decide)
  have f3 : ("brokerPort" = "brokerAddress") = False := eq_false (by decide)
  have f4 : ("brokerAddress" = "ipAddress") = False := eq_false (by decide)
  have f5 : ("brokerAddress" = "host") = False := eq_false (by decide)
  have f6 : ("notes" = "ipAddress") = False := eq_false (by decide)
  have f7 : ("notes" = "host") = False := eq_false (by decide)
  have f8 : ("timeStamp" = "ipAddress") = False := eq_false (by decide)
  have f9 : ("timeStamp" = "host") = False := eq_false (by decide)
  by_cases hsub : env.subscribeCode = 0 <;> cases hno : dget st.configuration "notes" <;>
    simp [startup, hba, hbp, hport, hqos, hpt, hct, hpi, hco, strConcat, hsub, hno,
      dget_dset, f1, f2, f3, f4, f5, f6, f7, f8, f9]

/-- Witness for C4: evaluated at the demonstration configuration with
the string broker port "1883". -/
theorem startup_string_port_ok_witness :
    (startup demoStartEnv demoState).error = none ∧
    Effect.connect (JVal.s "broker.local") 1883 ∈ (startup demoStartEnv demoState).output := by
  have h := startup_string_port_ok demoStartEnv demoState
    "broker.local" "1883" "telemetry" "control" 1883 1 10
    (by decide) (by decide) rfl (by decide) (by decide) (by decide)
    (by decide) (by decide) (by decide) rfl
  exact ⟨h.1, h.2.1⟩

/- ### Subscribe lemmas (claim C7) -/

theorem startup_subs_cases (env : StartEnv) (st : AgentState) :
    ((startup env st).error = none ∧ countSubs (startup env st).output = 1) ∨
    (∃ e, (startup env st).error = some e) := by
  unfold startup
  dsimp only
  repeat' split
  all_goals simp [countSubs, List.countP_append, List.countP_cons, isSubscribe]

/-- Counterexample for C7: a loop iteration that finds the client
disconnected and reconnects successfully emits only the sleep and the
`reconnect()` call — no `subscribe` is re-issued after the reconnect,
contradicting the claim. -/
theorem reconnect_no_resubscribe_demo :
    Effect.reconnect ∈ iterOut (loopIter
      ⟨false, ReconnectOutcome.ok, 5, 5, "a", JVal.i 41, false⟩ demoState) ∧
    countSubs (iterOut (loopIter
      ⟨false, ReconnectOutcome.ok, 5, 5, "a", JVal.i 41, false⟩ demoState)) = 0 := by
  decide

/-- C7 (amended): the control-topic `subscribe` is issued exactly once,
during the startup sequence (when startup completes without raising);
no iteration of the supervising loop — in particular no successful
reconnect — ever re-issues a subscribe, and hence no whole loop run
contains one. -/
theorem subscribe_only_at_startup :
    (∀ (it : IterEnv) (st : AgentState), countSubs (iterOut (loopIter it st)) = 0) ∧
    (∀ (its : List IterEnv) (st : AgentState), countSubs (runLoop its st).2.1 = 0) ∧
    (∀ (env : StartEnv) (st : AgentState),
      (startup env st).error = none → countSubs (startup env st).output = 1) := by
  refine ⟨loopIter_subs, runLoop_subs, ?_⟩
  intro env st h
  rcases startup_subs_cases env st with ⟨_, hc⟩ | ⟨e, he⟩
  · exact hc
  · rw [he] at h
    cases h

/-- Witness for C7: a disconnected-then-reconnected iteration subscribes
zero times, and the demonstration startup subscribes exactly once. -/
theorem subscribe_only_at_startup_witness :
    countSubs (iterOut (loopIter
      ⟨false, ReconnectOutcome.ok, 7, 7, "b", JVal.i 40, false⟩ demoState)) = 0 ∧
    (startup demoStartEnv demoState).error = none ∧
    countSubs (startup demoStartEnv demoState).output = 1 := by
  have h := subscribe_only_at_startup
  refine ⟨h.1 _ _, rfl, h.2.2 demoStartEnv demoState rfl⟩

/- ### Close-on-exit lemmas (claim C5) -/

theorem countClose_close (t : JVal) :
    countClose [Effect.unsubscribe t, Effect.loopStop, Effect.disconnect] = 1 := rfl

theorem startup_noClose (env : StartEnv) (st : AgentState) :
    countClose (startup env st).output = 0 := by
  unfold startup
  dsimp only
  repeat' split
  all_goals simp [countClose, List.countP_append, List.countP_cons, isLoopStop]

theorem mainHandle_spec (st : AgentState) (out : List Effect) (e : PyErr) (ctv : JVal)
    (hct : dget st.configuration "controlTopic" = some ctv) :
    (((mainHandle st out e).exit = ExitKind.interrupted ∨
      (mainHandle st out e).exit = ExitKind.timeoutExit) →
      countClose (mainHandle st out e).output = countClose out + 1) ∧
    (((mainHandle st out e).exit = ExitKind.keyErrorExit ∨
      (mainHandle st out e).exit = ExitKind.refusedExit ∨
      (∃ e2, (mainHandle st out e).exit = ExitKind.crashed e2)) →
      countClose (mainHandle st out e).output = countClose out) ∧
    (mainHandle st out e).exit ≠ ExitKind.running ∧
    (mainHandle st out e).exit ≠ ExitKind.finished := by
  have hcm : close_mqtt st =
      ([Effect.unsubscribe ctv, Effect.loopStop, Effect.disconnect], none) := by
    simp [close_mqtt, hct]
  cases e <;>
    simp [mainHandle, hcm, countClose, List.countP_append, List.countP_cons, isLoopStop]

/-- A contract-valid configuration missing only `publishTopic`. -/
def c5NoTopicConfig : Dict :=
  [("brokerAddress", JVal.s "broker.local"),
   ("brokerPort", JVal.s "1883"),
   ("brokerQoS", JVal.i 1),
   ("controlTopic", JVal.s "control"),
   ("publishInterval", JVal.i 10)]

/-- Counterexample for C5: a `KeyError` during startup (here: missing
`publishTopic`) is an exit path of the agent on which `close_mqtt` is
invoked zero times — the `except KeyError` clause only prints — so the
broker-session close is not invoked exactly once on every exit path. -/
theorem keyerror_exit_no_close_demo :
    (main ⟨"AA:BB:CC:DD:EE:FF", demoStartEnv, []⟩ c5NoTopicConfig).exit =
      ExitKind.keyErrorExit ∧
    countClose (main ⟨"AA:BB:CC:DD:EE:FF", demoStartEnv, []⟩ c5NoTopicConfig).output = 0 := by
  decide

/-- C5 (amended): `close_mqtt` (unsubscribe, stop delivery, disconnect)
runs exactly once on the keyboard-interrupt exit, on the in-loop
reconnect-timeout exit, and on the startup connect-timeout exit; it
runs zero times on the `KeyError` exit, the `ConnectionRefusedError`
exit, every uncaught-exception crash, and while the loop is still
running — there is no guaranteed-cleanup construct covering every exit
path. -/
theorem close_per_exit_path (menv : MainEnv) (cfg : Dict) (ctv : JVal)
    (hct : dget cfg "controlTopic" = some ctv) :
    (((main menv cfg).exit = ExitKind.interrupted ∨
      (main menv cfg).exit = ExitKind.finished ∨
      (main menv cfg).exit = ExitKind.timeoutExit) →
      countClose (main menv cfg).output = 1) ∧
    (((main menv cfg).exit = ExitKind.running ∨
      (main menv cfg).exit = ExitKind.keyErrorExit ∨
      (main menv cfg).exit = ExitKind.refusedExit ∨
      (∃ e, (main menv cfg).exit = ExitKind.crashed e)) →
      countClose (main menv cfg).output = 0) := by
  have hs0 : (startup menv.start (initState menv.mac cfg)).state.configuration = cfg :=
    startup_config menv.start (initState menv.mac cfg)
  have hsc : dget (startup menv.start (initState menv.mac cfg)).state.configuration
      "controlTopic" = some ctv := by
    rw [hs0]
    exact hct
  have hsn := startup_noClose menv.start (initState menv.mac cfg)
  have hls := runLoop_spec menv.iters (startup menv.start (initState menv.mac cfg)).state
  have hlc : dget (runLoop menv.iters
      (startup menv.start (initState menv.mac cfg)).state).1.configuration
      "controlTopic" = some ctv := by
    rw [hls.1, hs0]
    exact hct
  unfold main
  dsimp only
  cases herr : (startup menv.start (initState menv.mac cfg)).error with
  | some e =>
    dsimp only
    have hm := mainHandle_spec (startup menv.start (initState menv.mac cfg)).state
      (startup menv.start (initState menv.mac cfg)).output e ctv hsc
    constructor
    · intro hx
      rcases hx with hx | hx | hx
      · rw [hm.1 (Or.inl hx), hsn]
      · exact absurd hx hm.2.2.2
      · rw [hm.1 (Or.inr hx), hsn]
    · intro hx
      rcases hx with hx | hx | hx | hx
      · exact absurd hx hm.2.2.1
      · rw [hm.2.1 (Or.inl hx), hsn]
      · rw [hm.2.1 (Or.inr (Or.inl hx)), hsn]
      · rw [hm.2.1 (Or.inr (Or.inr hx)), hsn]
  | none =>
    dsimp only
    cases hend : (runLoop menv.iters (startup menv.start (initState menv.mac cfg)).state).2.2 with
    | ranOut =>
      dsimp only
      constructor
      · intro hx
        rcases hx with hx | hx | hx <;> cases hx
      · intro hx
        rw [countClose_append, hsn, hls.2.2.1 hend]
    | broke =>
      dsimp only
      constructor
      · intro hx
        rw [countClose_append, hsn, hls.2.1 hend]
      · intro hx
        rcases hx with hx | hx | hx | ⟨e2, hx⟩ <;> cases hx
    | raised e =>
      dsimp only
      have hm := mainHandle_spec
        (runLoop menv.iters (startup menv.start (initState menv.mac cfg)).state).1
        ((startup menv.start (initState menv.mac cfg)).output ++
         (runLoop menv.iters (startup menv.start (initState menv.mac cfg)).state).2.1)
        e ctv hlc
      have hz : countClose ((startup menv.start (initState menv.mac cfg)).output ++
          (runLoop menv.iters (startup menv.start (initState menv.mac cfg)).state).2.1) = 0 := by
        rw [countClose_append, hsn, hls.2.2.2 e hend]
      constructor
      · intro hx
        rcases hx with hx | hx | hx
        · rw [hm.1 (Or.inl hx), hz]
        · exact absurd hx hm.2.2.2
        · rw [hm.1 (Or.inr hx), hz]
      · intro hx
        rcases hx with hx | hx | hx | hx
        · exact absurd hx hm.2.2.1
        · rw [hm.2.1 (Or.inl hx), hz]
        · rw [hm.2.1 (Or.inr (Or.inl hx)), hz]
        · rw [hm.2.1 (Or.inr (Or.inr hx)), hz]

/-- Witness for C5: a run interrupted by Ctrl-C during its first loop
iteration exits via the interrupt handler and closes exactly once. -/
theorem close_per_exit_path_witness :
    (main ⟨"AA:BB:CC:DD:EE:FF", demoStartEnv,
       [⟨true, ReconnectOutcome.ok, 5, 5, "a", JVal.i 41, true⟩]⟩ demoConfig).exit =
      ExitKind.interrupted ∧
    countClose (main ⟨"AA:BB:CC:DD:EE:FF", demoStartEnv,
       [⟨true, ReconnectOutcome.ok, 5, 5, "a", JVal.i 41, true⟩]⟩ demoConfig).output = 1 := by
  have h := close_per_exit_path
    ⟨"AA:BB:CC:DD:EE:FF", demoStartEnv, [⟨true, ReconnectOutcome.ok, 5, 5, "a", JVal.i 41, true⟩]⟩
    demoConfig (JVal.s "control") (by decide)
  exact ⟨by decide, h.1 (Or.inl (by decide))⟩

/-- Witness for C9: evaluated on a loop iteration and on a debug
command, both of which leave the configuration untouched. -/
theorem config_mutation_only_validated_interval_witness :
    (iterState (loopIter ⟨true, ReconnectOutcome.ok, 5, 5, "a", JVal.i 41, false⟩ demoState)).configuration =
      demoState.configuration ∧
    (main ⟨"AA:BB:CC:DD:EE:FF", demoStartEnv, []⟩ demoConfig).state.configuration = demoConfig := by
  have h := config_mutation_only_validated_interval
  exact ⟨h.2.1 ⟨true, ReconnectOutcome.ok, 5, 5, "a", JVal.i 41, false⟩ demoState,
         h.2.2.2.2 ⟨"AA:BB:CC:DD:EE:FF", demoStartEnv, []⟩ demoConfig⟩

end LS
